import Mathlib

/-!
Shallow embedding of the Repo-Monitoring-Agent core (src/src/state.py,
src/src/workflow.py, src/src/github_client.py, src/main.py).

Timestamps are modelled as `Int` seconds since an arbitrary epoch; Python's
`timedelta.days` is floor division of the difference by 86400, so `ageDays`
uses `Int.fdiv`.  Fallible collaborator calls (the GitHub client, which may
raise) are modelled with `Except`; the boolean result of the email service is
passed in as a `Bool` parameter.  Per-stage current times are passed
explicitly, since each stage reads the wall clock independently.
-/

namespace RepoMonitor

/-- A label dict `{name, color}` as built by `github_client.py`. -/
structure Label where
  name : String
  color : String
  deriving Repr, DecidableEq

/-- An assignee dict `{login, avatar_url}` as built by `github_client.py`. -/
structure Assignee where
  login : String
  avatar_url : String
  deriving Repr, DecidableEq

/-- `Issue` pydantic model from `src/src/state.py`. -/
structure Issue where
  number : Int
  title : String
  state : String
  created_at : Int
  updated_at : Int
  html_url : String
  labels : List Label
  assignees : List Assignee
  deriving Repr, DecidableEq

/-- `Issue.age_days` from `src/src/state.py`: `(datetime.now() - created_at).days`,
whole days by floor division (Python `timedelta.days` floors). -/
def Issue.age_days (now : Int) (i : Issue) : Int :=
  Int.fdiv (now - i.created_at) 86400

/-- `PullRequest` pydantic model from `src/src/state.py`. -/
structure PullRequest where
  number : Int
  title : String
  state : String
  merged_at : Option Int
  closed_at : Option Int
  html_url : String
  labels : List Label
  assignees : List Assignee
  deriving Repr, DecidableEq

/-- `PullRequest.is_merged` from `src/src/state.py`: `merged_at is not None`. -/
def PullRequest.is_merged (pr : PullRequest) : Bool :=
  pr.merged_at.isSome

/-- `RepoMonitorState` dataclass from `src/src/state.py`.  The Python code
stores issues and PRs as dicts and reconstructs the pydantic models in the
analysis nodes (`Issue(**issue_data)`); that round trip is the identity, so we
store the model values directly. -/
structure RepoMonitorState where
  repo_owner : String
  repo_name : String
  github_token : String
  issue_threshold_days : Int
  email_recipients : List String
  open_issues : List Issue
  recent_prs : List PullRequest
  last_email_sent : Option Int
  sent_notifications : List String
  smtp_host : String
  smtp_port : Int
  email_username : String
  email_password : String
  should_send_issue_alert : Bool
  should_send_pr_notification : Bool
  alert_issues : List Issue
  notification_prs : List PullRequest
  deriving Repr, DecidableEq

/-- Errors raised by the data source (e.g. the GitHub library); the spec calls
the transport/auth failure `SourceUnavailable`. -/
inductive GithubError where
  | sourceUnavailable : GithubError
  | authRejected : GithubError
  | other : String → GithubError
  deriving Repr, DecidableEq

/-- `GitHubClient.get_recent_prs` from `src/src/github_client.py`: iterates all
pulls; includes a PR when `merged_at` is present and `>= lookback_time`, or
(elif) when `closed_at` is present and `>= lookback_time` **and** `merged_at`
is absent; `lookback_time = now - lookback_hours` hours.  The constructed
`PullRequest` copies the fields unchanged. -/
def get_recent_prs (lookback_hours now : Int) (pulls : List PullRequest) :
    List PullRequest :=
  let lookback_time := now - lookback_hours * 3600
  pulls.filter (fun pr =>
    match pr.merged_at with
    | some m => lookback_time ≤ m
    | none =>
      match pr.closed_at with
      | some c => lookback_time ≤ c
      | none => false)

/-- `_fetch_data_node` from `src/src/workflow.py`: stores the issues fetched by
`get_open_issues`, then the PRs fetched by `get_recent_prs`; either client call
may raise, which aborts the node (the caller of the workflow never receives a
state in that case). -/
def fetch_data_node (issuesRes : Except GithubError (List Issue))
    (prsRes : Except GithubError (List PullRequest))
    (s : RepoMonitorState) : Except GithubError RepoMonitorState :=
  match issuesRes with
  | .error e => .error e
  | .ok issues =>
    match prsRes with
    | .error e => .error e
    | .ok prs => .ok { s with open_issues := issues, recent_prs := prs }

/-- `_analyze_issues_node` from `src/src/workflow.py`: keeps the issues with
`age_days >= issue_threshold_days` (in input order) and sets the alert flag to
`len(alert_issues) > 0`. -/
def analyze_issues_node (now : Int) (s : RepoMonitorState) : RepoMonitorState :=
  let alert_issues :=
    s.open_issues.filter (fun i => Issue.age_days now i ≥ s.issue_threshold_days)
  { s with alert_issues := alert_issues,
           should_send_issue_alert := decide (alert_issues.length > 0) }

/-- `_analyze_prs_node` from `src/src/workflow.py`: keeps the PRs with
`pr.is_merged or pr.closed_at` (a datetime is truthy exactly when present) and
sets the notify flag to `len(notification_prs) > 0`. -/
def analyze_prs_node (s : RepoMonitorState) : RepoMonitorState :=
  let notification_prs :=
    s.recent_prs.filter (fun pr => pr.is_merged || pr.closed_at.isSome)
  { s with notification_prs := notification_prs,
           should_send_pr_notification := decide (notification_prs.length > 0) }

/-- `_should_send_issue_alert` from `src/src/workflow.py` (string-keyed route). -/
def should_send_issue_alert_route (s : RepoMonitorState) : String :=
  if s.should_send_issue_alert then "send_alert" else "skip"

/-- `_should_send_pr_notification` from `src/src/workflow.py`. -/
def should_send_pr_notification_route (s : RepoMonitorState) : String :=
  if s.should_send_pr_notification then "send_notification" else "skip"

/-- `_send_issue_alert_node` from `src/src/workflow.py`: `success` is the
boolean returned by `EmailService.send_issue_alert`; on success the node
appends `issue_alert_<datetime.now().isoformat()>` to `sent_notifications`,
otherwise it only logs. -/
def send_issue_alert_node (success : Bool) (isoNow : String)
    (s : RepoMonitorState) : RepoMonitorState :=
  if success then
    { s with sent_notifications := s.sent_notifications ++ ["issue_alert_" ++ isoNow] }
  else s

/-- `_send_pr_notification_node` from `src/src/workflow.py`: analogous, with
identifier `pr_notification_<ISO timestamp>`. -/
def send_pr_notification_node (success : Bool) (isoNow : String)
    (s : RepoMonitorState) : RepoMonitorState :=
  if success then
    { s with sent_notifications := s.sent_notifications ++ ["pr_notification_" ++ isoNow] }
  else s

/-- `_update_state_node` from `src/src/workflow.py`: if `sent_notifications`
is (truthy, i.e. non-empty), sets `last_email_sent` to the current time; then
resets the two flags and the two selected lists.  It does **not** clear
`open_issues` or `recent_prs`. -/
def update_state_node (now : Int) (s : RepoMonitorState) : RepoMonitorState :=
  let s1 := if s.sent_notifications.isEmpty then s
            else { s with last_email_sent := some now }
  { s1 with should_send_issue_alert := false,
            should_send_pr_notification := false,
            alert_issues := [],
            notification_prs := [] }

/-- One cycle of the compiled workflow (`_create_workflow` topology executed on
one state): fetch, the two analyses (independent, either order gives the same
state since they write disjoint fields), the two string-routed conditional
sends, then the `update_state` join.  A fetch error propagates out of
`invoke`; no later stage runs. -/
def runCycle (issuesRes : Except GithubError (List Issue))
    (prsRes : Except GithubError (List PullRequest))
    (issueSinkOk prSinkOk : Bool) (now : Int) (isoIssue isoPr : String)
    (s : RepoMonitorState) : Except GithubError RepoMonitorState :=
  match fetch_data_node issuesRes prsRes s with
  | .error e => .error e
  | .ok s1 =>
    let s2 := analyze_issues_node now s1
    let s3 := analyze_prs_node s2
    let s4 := if should_send_issue_alert_route s3 = "send_alert"
              then send_issue_alert_node issueSinkOk isoIssue s3 else s3
    let s5 := if should_send_pr_notification_route s4 = "send_notification"
              then send_pr_notification_node prSinkOk isoPr s4 else s4
    .ok (update_state_node now s5)

/-- `run_monitoring_cycle` from `src/main.py` wraps the whole cycle in
`try ... except Exception: print(traceback)`: whether it re-raises to its
caller.  The bare `except Exception` catches every cycle error, so it never
re-raises. -/
def run_monitoring_cycle_raises
    (cycleResult : Except GithubError RepoMonitorState) : Bool :=
  match cycleResult with
  | .ok _ => false
  | .error _ => false

/-- Exit code of `python main.py --once` (`run_once` in `src/main.py`): the
script has no `sys.exit` call, so the process exits 0 unless an exception
escapes `run_monitoring_cycle` (in which case Python exits non-zero, modelled
as 1). -/
def run_once_exit_code (cycleResult : Except GithubError RepoMonitorState) : Nat :=
  if run_monitoring_cycle_raises cycleResult then 1 else 0

/-- C7: `update_state_node` is idempotent at a fixed current time: entering
the finalization stage a second time (as the two-branch fan-out of the graph
may do) yields the same state as entering it once. -/
theorem update_state_node_idempotent (now : Int) (s : RepoMonitorState) :
    update_state_node now (update_state_node now s) = update_state_node now s := by
  unfold update_state_node
  by_cases h : s.sent_notifications.isEmpty <;> simp [h]

/-- C2: the issue-analysis stage selects exactly the issues whose `age_days`
(floor days between creation and now) meets or exceeds the threshold — the
boundary case `age_days = threshold` included — in input order (a sublist of
the input), sets the alert flag true iff the selection is non-empty, and maps
an empty input to an empty selection. -/
theorem analyze_issues_spec (now : Int) (s : RepoMonitorState) :
    (∀ i, i ∈ (analyze_issues_node now s).alert_issues ↔
       i ∈ s.open_issues ∧ Issue.age_days now i ≥ s.issue_threshold_days)
    ∧ (analyze_issues_node now s).alert_issues.Sublist s.open_issues
    ∧ ((analyze_issues_node now s).should_send_issue_alert = true ↔
        (analyze_issues_node now s).alert_issues ≠ [])
    ∧ (∀ i, i ∈ s.open_issues →
        i.created_at = now - s.issue_threshold_days * 86400 →
        i ∈ (analyze_issues_node now s).alert_issues)
    ∧ (s.open_issues = [] → (analyze_issues_node now s).alert_issues = []) := by
  refine ⟨?_, ?_, ?_, ?_, ?_⟩
  · intro i
    simp [analyze_issues_node, List.mem_filter]
  · simp [analyze_issues_node]
  · simp [analyze_issues_node, List.length_pos, decide_eq_true_iff]
  · intro i hmem hcreated
    have hage : Issue.age_days now i = s.issue_threshold_days := by
      simp [Issue.age_days, hcreated]
    simp [analyze_issues_node, List.mem_filter, hmem, hage]
  · intro h
    simp [analyze_issues_node, h]

/-- Witness for `analyze_issues_spec` at a concrete state: one issue created
exactly 7 days (threshold) before `now = 86400 * 7` is selected. -/
theorem analyze_issues_spec_witness :
    let i : Issue :=
      { number := 1, title := "t", state := "open", created_at := 0,
        updated_at := 0, html_url := "u", labels := [], assignees := [] }
    let s : RepoMonitorState :=
      { repo_owner := "o", repo_name := "r", github_token := "g",
        issue_threshold_days := 7, email_recipients := [],
        open_issues := [i], recent_prs := [],
        last_email_sent := none, sent_notifications := [],
        smtp_host := "h", smtp_port := 587, email_username := "",
        email_password := "", should_send_issue_alert := false,
        should_send_pr_notification := false, alert_issues := [],
        notification_prs := [] }
    i ∈ (analyze_issues_node 604800 s).alert_issues := by
  intro i s
  exact (analyze_issues_spec 604800 s).2.2.2.1 i (by decide) (by decide)

/-- C3: the PR-analysis stage selects exactly the PRs that are merged or have
`closed_at` present; an open PR (neither timestamp) is never selected, a
closed-but-unmerged PR is selected, and the notify flag is true iff the
selection is non-empty. -/
theorem analyze_prs_spec (s : RepoMonitorState) :
    (∀ pr, pr ∈ (analyze_prs_node s).notification_prs ↔
       pr ∈ s.recent_prs ∧ (pr.is_merged = true ∨ pr.closed_at.isSome = true))
    ∧ (analyze_prs_node s).notification_prs.Sublist s.recent_prs
    ∧ ((analyze_prs_node s).should_send_pr_notification = true ↔
        (analyze_prs_node s).notification_prs ≠ [])
    ∧ (∀ pr, pr ∈ s.recent_prs → pr.merged_at = none → pr.closed_at = none →
        pr ∉ (analyze_prs_node s).notification_prs)
    ∧ (∀ pr, pr ∈ s.recent_prs → pr.merged_at = none →
        pr.closed_at.isSome = true →
        pr ∈ (analyze_prs_node s).notification_prs) := by
  refine ⟨?_, ?_, ?_, ?_, ?_⟩
  · intro pr
    simp [analyze_prs_node, List.mem_filter]
  · simp [analyze_prs_node]
  · simp [analyze_prs_node, List.length_pos, decide_eq_true_iff]
  · intro pr hmem hm hc
    simp [analyze_prs_node, List.mem_filter, PullRequest.is_merged, hm, hc]
  · intro pr hmem hm hc
    simp [analyze_prs_node, List.mem_filter, hmem, hc]

/-- Witness for `analyze_prs_spec`: a closed-but-unmerged PR is selected. -/
theorem analyze_prs_spec_witness :
    let pr : PullRequest :=
      { number := 2, title := "t", state := "closed", merged_at := none,
        closed_at := some 100, html_url := "u", labels := [], assignees := [] }
    let s : RepoMonitorState :=
      { repo_owner := "o", repo_name := "r", github_token := "g",
        issue_threshold_days := 7, email_recipients := [],
        open_issues := [], recent_prs := [pr],
        last_email_sent := none, sent_notifications := [],
        smtp_host := "h", smtp_port := 587, email_username := "",
        email_password := "", should_send_issue_alert := false,
        should_send_pr_notification := false, alert_issues := [],
        notification_prs := [] }
    pr ∈ (analyze_prs_node s).notification_prs := by
  intro pr s
  exact (analyze_prs_spec s).2.2.2.2 pr (by decide) (by decide) (by decide)

/-- A minimal concrete state for evaluating the stages on explicit inputs. -/
def baseState : RepoMonitorState :=
  { repo_owner := "octocat", repo_name := "hello", github_token := "tok",
    issue_threshold_days := 7, email_recipients := ["a@b.c"],
    open_issues := [], recent_prs := [],
    last_email_sent := none, sent_notifications := [],
    smtp_host := "smtp.gmail.com", smtp_port := 587, email_username := "",
    email_password := "", should_send_issue_alert := false,
    should_send_pr_notification := false, alert_issues := [],
    notification_prs := [] }

/-- A PR merged 48 hours before the reference time 0 (outside a 24-hour
window) but closed only 1 hour before it (inside the window). -/
def mergedOutsideClosedInside : PullRequest :=
  { number := 3, title := "t", state := "closed", merged_at := some (-172800),
    closed_at := some (-3600), html_url := "u", labels := [], assignees := [] }

/-- An issue whose creation time 0 is far in the past of the clocks used in
the concrete evaluations below. -/
def staleIssue : Issue :=
  { number := 4, title := "t", state := "open", created_at := 0,
    updated_at := 0, html_url := "u", labels := [], assignees := [] }

/-- C1 counterexample: a cycle run on a state rehydrated with one old entry in
`sent_notifications` fetches nothing and produces zero notifications
(`sent_notifications` is still exactly `["old"]` afterwards), yet finalization
sets `last_email_sent` to the current time 1000 — `_update_state_node` tests
the whole list, not the entries gained this cycle — so `lastNotifiedAt` is not
left unchanged as claimed. -/
theorem update_state_rehydrated_counterexample :
    (runCycle (.ok []) (.ok []) true true 1000 "i" "p"
        { baseState with sent_notifications := ["old"] }).toOption.map
        (fun s => (s.sent_notifications, s.last_email_sent))
      = some (["old"], some 1000)
    ∧ ({ baseState with sent_notifications := ["old"] } :
        RepoMonitorState).last_email_sent = none := ⟨rfl, rfl⟩

/-- C1 amended: `update_state_node` never modifies `sent_notifications`, and
sets `last_email_sent` to the current time iff `sent_notifications` is
non-empty when finalization runs — whether its entries were gained this cycle
or carried in from rehydration.  A cycle starting with an empty list that
produced zero notifications therefore leaves both fields unchanged, but a
rehydrated non-empty list causes `last_email_sent` to be set even when the
cycle produced nothing. -/
theorem update_state_last_email_spec (now : Int) (s : RepoMonitorState) :
    (update_state_node now s).sent_notifications = s.sent_notifications
    ∧ (update_state_node now s).last_email_sent
        = (if s.sent_notifications = [] then s.last_email_sent else some now) := by
  constructor
  · by_cases h : s.sent_notifications.isEmpty <;> simp [update_state_node, h]
  · by_cases h : s.sent_notifications = [] <;>
      simp [update_state_node, h]

/-- C4 counterexample: finalization does not reset the fetched lists: on a
state whose `open_issues` and `recent_prs` are non-empty, both survive
`update_state_node` untouched, contradicting the claim that every per-cycle
scratch field (including the fetched issues and fetched pull requests) is
reset to its empty default. -/
theorem update_state_scratch_counterexample :
    (update_state_node 0
        { baseState with open_issues := [staleIssue],
                         recent_prs := [mergedOutsideClosedInside] }).open_issues
      = [staleIssue]
    ∧ (update_state_node 0
        { baseState with open_issues := [staleIssue],
                         recent_prs := [mergedOutsideClosedInside] }).recent_prs
      = [mergedOutsideClosedInside] := ⟨rfl, rfl⟩

/-- C4 amended: finalization resets the two decision flags and the two
flagged-subset lists to their empty/false defaults, but leaves the fetched
issues and fetched pull requests lists untouched; identity/config fields and
`sent_notifications` are preserved, and `last_email_sent` is preserved except
that it is set to the current time when `sent_notifications` is non-empty. -/
theorem update_state_resets_spec (now : Int) (s : RepoMonitorState) :
    (update_state_node now s).should_send_issue_alert = false
    ∧ (update_state_node now s).should_send_pr_notification = false
    ∧ (update_state_node now s).alert_issues = []
    ∧ (update_state_node now s).notification_prs = []
    ∧ (update_state_node now s).open_issues = s.open_issues
    ∧ (update_state_node now s).recent_prs = s.recent_prs
    ∧ (update_state_node now s).repo_owner = s.repo_owner
    ∧ (update_state_node now s).repo_name = s.repo_name
    ∧ (update_state_node now s).github_token = s.github_token
    ∧ (update_state_node now s).issue_threshold_days = s.issue_threshold_days
    ∧ (update_state_node now s).email_recipients = s.email_recipients
    ∧ (update_state_node now s).smtp_host = s.smtp_host
    ∧ (update_state_node now s).smtp_port = s.smtp_port
    ∧ (update_state_node now s).email_username = s.email_username
    ∧ (update_state_node now s).email_password = s.email_password
    ∧ (update_state_node now s).sent_notifications = s.sent_notifications
    ∧ (update_state_node now s).last_email_sent
        = (if s.sent_notifications = [] then s.last_email_sent else some now) := by
  by_cases h : s.sent_notifications = [] <;>
    simp [update_state_node, h]

/-- C5: on sink success each send stage appends exactly one identifier of the
required form (`issue_alert_<ISO>` resp. `pr_notification_<ISO>`) to
`sent_notifications` and changes no other field; on sink failure it changes
nothing at all, raises nothing, and the cycle still reaches finalization: a
cycle whose sinks both report failure completes with a final state. -/
theorem send_nodes_spec (ok : Bool) (iso1 iso2 : String) (s : RepoMonitorState)
    (issues : List Issue) (prs : List PullRequest) (now : Int) :
    (send_issue_alert_node true iso1 s).sent_notifications
        = s.sent_notifications ++ ["issue_alert_" ++ iso1]
    ∧ (send_pr_notification_node true iso2 s).sent_notifications
        = s.sent_notifications ++ ["pr_notification_" ++ iso2]
    ∧ send_issue_alert_node false iso1 s = s
    ∧ send_pr_notification_node false iso2 s = s
    ∧ (send_issue_alert_node ok iso1 s).last_email_sent = s.last_email_sent
    ∧ (send_issue_alert_node ok iso1 s).open_issues = s.open_issues
    ∧ (send_issue_alert_node ok iso1 s).recent_prs = s.recent_prs
    ∧ (send_issue_alert_node ok iso1 s).alert_issues = s.alert_issues
    ∧ (send_issue_alert_node ok iso1 s).notification_prs = s.notification_prs
    ∧ (send_issue_alert_node ok iso1 s).should_send_issue_alert
        = s.should_send_issue_alert
    ∧ (send_pr_notification_node ok iso2 s).last_email_sent = s.last_email_sent
    ∧ (send_pr_notification_node ok iso2 s).open_issues = s.open_issues
    ∧ (send_pr_notification_node ok iso2 s).recent_prs = s.recent_prs
    ∧ (send_pr_notification_node ok iso2 s).alert_issues = s.alert_issues
    ∧ (send_pr_notification_node ok iso2 s).notification_prs
        = s.notification_prs
    ∧ (∃ s', runCycle (.ok issues) (.ok prs) false false now iso1 iso2 s
        = .ok s') := by
  refine ⟨rfl, rfl, rfl, rfl, ?_, ?_, ?_, ?_, ?_, ?_, ?_, ?_, ?_, ?_, ?_, ?_⟩
  all_goals first
    | (cases ok <;> rfl)
    | exact ⟨_, rfl⟩

/-- C6: if either Data Source call raises, the cycle propagates the very same
error value, for every sink behavior and every clock (so no analysis or send
stage can influence the outcome), and never yields a final state — the caller
keeps its pre-cycle state and `sent_notifications` is untouched; no
partial-data notification is possible. -/
theorem fetch_failure_spec (e : GithubError)
    (prsRes : Except GithubError (List PullRequest)) (issues : List Issue)
    (iOk pOk : Bool) (now : Int) (iso1 iso2 : String) (s : RepoMonitorState) :
    runCycle (.error e) prsRes iOk pOk now iso1 iso2 s = .error e
    ∧ runCycle (.ok issues) (.error e) iOk pOk now iso1 iso2 s = .error e
    ∧ ∀ s', runCycle (.error e) prsRes iOk pOk now iso1 iso2 s ≠ .ok s' := by
  refine ⟨rfl, rfl, ?_⟩
  intro s' h
  exact Except.noConfusion h

/-- Witness for `fetch_failure_spec`: a concrete failing fetch propagates
`SourceUnavailable` unchanged. -/
theorem fetch_failure_spec_witness :
    runCycle (.error .sourceUnavailable) (.ok []) true true 0 "i" "p" baseState
      = .error .sourceUnavailable :=
  (fetch_failure_spec .sourceUnavailable (.ok []) [] true true 0 "i" "p"
    baseState).1

/-- C8 counterexample: a PR merged 48 hours ago but closed 1 hour ago has its
`closed_at` inside a 24-hour lookback window (`-86400 ≤ -3600`), so by the
claim it should be returned; `get_recent_prs` returns the empty list for it
(the closed-branch requires `merged_at` to be absent). -/
theorem get_recent_prs_counterexample :
    get_recent_prs 24 0 [mergedOutsideClosedInside] = []
    ∧ mergedOutsideClosedInside.closed_at = some (-3600)
    ∧ ((0 : Int) - 24 * 3600 ≤ -3600) := by decide

/-- C8 amended: `get_recent_prs` returns exactly those PRs (in input order)
whose `merged_at` is within the lookback window, or whose `merged_at` is
absent and `closed_at` is within the window; a PR with `merged_at` outside the
window is excluded even when its `closed_at` is inside, and a PR with both
timestamps outside the window (or absent) is never included. -/
theorem get_recent_prs_spec (lookback_hours now : Int)
    (pulls : List PullRequest) :
    (∀ pr, pr ∈ get_recent_prs lookback_hours now pulls ↔
       pr ∈ pulls ∧
       ((∃ m, pr.merged_at = some m ∧ now - lookback_hours * 3600 ≤ m) ∨
        (pr.merged_at = none ∧
         ∃ c, pr.closed_at = some c ∧ now - lookback_hours * 3600 ≤ c)))
    ∧ (get_recent_prs lookback_hours now pulls).Sublist pulls := by
  constructor
  · intro pr
    rcases hm : pr.merged_at with _ | m <;>
      rcases hc : pr.closed_at with _ | c <;>
        simp [get_recent_prs, List.mem_filter, hm, hc]
  · simp [get_recent_prs]

/-- C9 counterexample: in single-shot mode a fatal fetch failure
(`SourceUnavailable` raised by the Data Source) still yields exit code 0 — the
bare `except Exception` in `run_monitoring_cycle` swallows it — not the
non-zero exit code the claim requires. -/
theorem run_once_exit_counterexample :
    run_once_exit_code (.error .sourceUnavailable) = 0 := rfl

/-- C9 amended: single-shot mode always exits 0: `run_monitoring_cycle`
catches every exception and only prints it, so a fatal fetch failure never
reaches the process exit code; a clean cycle also exits 0. -/
theorem run_once_exit_spec (r : Except GithubError RepoMonitorState) :
    run_once_exit_code r = 0 ∧ run_monitoring_cycle_raises r = false := by
  cases r <;> exact ⟨rfl, rfl⟩

/-- C10: every PR returned by `get_recent_prs` has `merged_at` or `closed_at`
present (is reportable), so on a state whose `recent_prs` was populated from
`get_recent_prs`, the PR-analysis stage keeps every fetched PR
(`notification_prs = recent_prs`) and sets the notify flag iff the fetched
list is non-empty. -/
theorem fetched_prs_all_reportable (lookback_hours now : Int)
    (pulls : List PullRequest) (s : RepoMonitorState)
    (h : s.recent_prs = get_recent_prs lookback_hours now pulls) :
    (∀ pr ∈ s.recent_prs, pr.is_merged = true ∨ pr.closed_at.isSome = true)
    ∧ (analyze_prs_node s).notification_prs = s.recent_prs
    ∧ ((analyze_prs_node s).should_send_pr_notification = true ↔
        s.recent_prs ≠ []) := by
  have hrep : ∀ pr ∈ s.recent_prs,
      pr.is_merged = true ∨ pr.closed_at.isSome = true := by
    intro pr hpr
    rw [h] at hpr
    rcases List.mem_filter.mp hpr with ⟨_, hp⟩
    rcases hm : pr.merged_at with _ | m <;>
      rcases hc : pr.closed_at with _ | c <;>
        simp_all [PullRequest.is_merged, hm, hc]
  have hfilter : s.recent_prs.filter
      (fun pr => pr.is_merged || pr.closed_at.isSome) = s.recent_prs := by
    rw [List.filter_eq_self]
    intro pr hpr
    rcases hrep pr hpr with hme | hcl
    · simp [hme]
    · simp [hcl]
  refine ⟨hrep, ?_, ?_⟩
  · simp [analyze_prs_node, hfilter]
  · simp [analyze_prs_node, hfilter, List.length_pos, decide_eq_true_iff]

/-- Witness for `fetched_prs_all_reportable`: on the fetch result for one
closed-in-window PR, the analysis stage keeps it and raises the flag. -/
theorem fetched_prs_all_reportable_witness :
    let pr : PullRequest :=
      { number := 5, title := "t", state := "closed", merged_at := some (-60),
        closed_at := some (-60), html_url := "u", labels := [],
        assignees := [] }
    (analyze_prs_node
        { baseState with recent_prs := get_recent_prs 24 0 [pr] }).notification_prs
      = get_recent_prs 24 0 [pr] := by
  intro pr
  exact (fetched_prs_all_reportable 24 0 [pr]
    { baseState with recent_prs := get_recent_prs 24 0 [pr] } rfl).2.1

end RepoMonitor
